import Mathlib

/-!
Verification development for the NSE data-fetching pipeline
(`src/dev/day_excel.py`, `src/dev/app.old.py`, `src/dev/run.no_shorting_old.py`,
`src/prod/scripts/run_csv.py`, `src/prod/run_all.py`).

The Python scripts work on dynamically typed JSON payloads.  We embed the
payloads as a JSON value type `JVal` and translate each relevant Python
function into a Lean function over `JVal`.  Fallible operations (dictionary
indexing with `[]`, list indexing, iteration over a non-list) are modelled in
the `Except String` monad; `dict.get` with a default is total on dictionaries.

Modelling conventions, stated once:
* JSON numbers are represented as rationals (`ℚ`); the provider payloads
  carry numbers as JSON numbers, so `float()` / `int()` applied to strings
  (which Python would parse) does not occur on the modelled inputs and is
  mapped to an error, as for other non-numeric values.
* Python `x or y` returns `y` exactly when `x` is falsy (`None`, `0`, `""`,
  `[]`, `{}`); this is `pyOr` below.
* Python `%` on integers returns a result with the divisor's sign, exactly
  as Lean's `%` (`Int.emod`) does.
-/

/-- A JSON value, as produced by `response.json()` in the scripts. -/
inductive JVal where
  | null : JVal
  | num (q : ℚ) : JVal
  | str (s : String) : JVal
  | arr (xs : List JVal) : JVal
  | obj (fields : List (String × JVal)) : JVal

/-- Dictionary lookup: `some v` when the key is present, `none` when absent;
`.get`/`[]`/`in` on a non-dictionary raises in Python, hence `.error`. -/
def JVal.lookup : JVal → String → Except String (Option JVal)
  | .obj fields, k => .ok (fields.findSome? (fun p => if p.1 = k then some p.2 else none))
  | _, _ => .error "AttributeError: not a dict"

/-- Python `o.get(k, d)`: the stored value when present (even when stored as
`None`), otherwise the default. -/
def jgetD (o : JVal) (k : String) (d : JVal) : Except String JVal := do
  pure ((← o.lookup k).getD d)

/-- Python `o[k]`: raises `KeyError` when the key is absent. -/
def jidx (o : JVal) (k : String) : Except String JVal := do
  match ← o.lookup k with
  | some v => pure v
  | none => .error "KeyError"

/-- Python `k in o` for a dictionary `o`. -/
def hasKey (o : JVal) (k : String) : Except String Bool := do
  pure ((← o.lookup k).isSome)

/-- Python truthiness of a JSON value. -/
def JVal.truthy : JVal → Bool
  | .null => false
  | .num q => if q = 0 then false else true
  | .str s => if s = "" then false else true
  | .arr xs => if xs.isEmpty then false else true
  | .obj fields => if fields.isEmpty then false else true

/-- Python `v or d`. -/
def pyOr (v d : JVal) : JVal := if v.truthy then v else d

/-- Truncation toward zero, the behaviour of Python `int()` on a float. -/
def pyTrunc (q : ℚ) : ℤ := if 0 ≤ q then ⌊q⌋ else -⌊-q⌋

/-- Python `float(v)` on the value kinds occurring in the modelled payloads:
a number converts, anything else raises `TypeError`. -/
def jfloat : JVal → Except String ℚ
  | .num q => .ok q
  | _ => .error "TypeError: float() argument"

/-- Python `int(v)` on the value kinds occurring in the modelled payloads. -/
def jint : JVal → Except String ℤ
  | .num q => .ok (pyTrunc q)
  | _ => .error "TypeError: int() argument"

/-- Iterating a JSON array; iterating anything else is outside the modelled
payload shapes and mapped to an error. -/
def asArr : JVal → Except String (List JVal)
  | .arr xs => .ok xs
  | _ => .error "TypeError: not a list"

/-- Python `o.get(k, d)` for a field that holds a string in the modelled
payloads (identifier, expiryDate, optionType, instrumentType). -/
def getStrD (o : JVal) (k : String) (d : String) : Except String String := do
  match (← o.lookup k).getD (.str d) with
  | .str s => pure s
  | _ => .error "unexpected non-string field"

/-- Python `float(o.get(k) or 0)` — and equally `float(o.get(k, 0) or 0)`,
since the defaults `None` and `0` are both falsy and coalesce alike. -/
def getFloatOr0 (o : JVal) (k : String) : Except String ℚ := do
  jfloat (pyOr ((← o.lookup k).getD .null) (.num 0))

/-- Python `int(o.get(k, 0) or 0)`. -/
def getIntOr0 (o : JVal) (k : String) : Except String ℤ := do
  jint (pyOr ((← o.lookup k).getD (.num 0)) (.num 0))

/-!
## Nearest-expiry selection (`src/dev/day_excel.py`, line 151)

`expiry_date = (datetime.now() + timedelta((3 - datetime.now().weekday()) % 7)).strftime("%Y-%m-%d")`

Dates are modelled as integer day numbers with `weekday d = d % 7`
(day 0 a Monday, so `weekday` agrees with Python's `datetime.weekday()`:
Monday = 0, ..., Thursday = 3, Sunday = 6).
-/

/-- The offset `(3 - weekday) % 7` added to today, from `day_excel.py:151`. -/
def expiryOffset (weekday : ℤ) : ℤ := (3 - weekday) % 7

/-- The selected expiry day number: today plus the computed offset. -/
def selectedExpiryDay (today : ℤ) : ℤ := today + expiryOffset (today % 7)

/-- C1: the claim as stated is false on the code — day 3 is a Thursday
(`3 % 7 = 3`), and the computed expiry date is day 3 itself (offset 0),
not day 3 + 7. -/
theorem c1_counterexample :
    (3 : ℤ) % 7 = 3 ∧ selectedExpiryDay 3 = 3 ∧ selectedExpiryDay 3 ≠ 3 + 7 := by
  refine ⟨by decide, by decide, by decide⟩

/-- C1 (amended): for every current day, the selected expiry is the earliest
day on or after today whose weekday is Thursday (offset `(3 - weekday) % 7`);
in particular, when today is itself a Thursday the computed date is today + 0
days, i.e. today itself, not today + 7. -/
theorem c1_nearest_expiry_amended (today : ℤ) :
    today ≤ selectedExpiryDay today ∧
    selectedExpiryDay today % 7 = 3 ∧
    (∀ d : ℤ, today ≤ d → d % 7 = 3 → selectedExpiryDay today ≤ d) ∧
    (today % 7 = 3 → selectedExpiryDay today = today) := by
  unfold selectedExpiryDay expiryOffset
  refine ⟨by omega, by omega, fun d hd h => by omega, fun h => by omega⟩

/-- Witness for C1 (amended) at a concrete Thursday, day 10. -/
theorem c1_nearest_expiry_amended_witness : selectedExpiryDay 10 = 10 :=
  (c1_nearest_expiry_amended 10).2.2.2 (by decide)

/-!
## Quote-derivative normalization
(`src/dev/day_excel.py` `process_data`, lines 88–112; the same function at
`src/dev/run.no_shorting_old.py` lines 98–124; and the prod variant
`src/prod/scripts/run_csv.py` `process_data`, lines 41–90.)
-/

/-- One output row of the quote-derivative normalizers: the 25-element list
appended at `day_excel.py:99-111` / `run_csv.py:56-82`, with the positional
fields named after `self.columns`. Index 19 of the Python list is `expDate`
("Exp. Date"), the field read by `filter_expiry_date` as `row[19]`.
`ticker` is `Option String` because the dev normalizer can emit Python
`None` there. -/
structure RowQD where
  ticker : Option String
  xch : String
  ltp : ℚ
  qty : ℤ
  chg : ℚ
  pChg : ℚ
  bidQty : ℤ
  bid : ℚ
  openPrice : ℚ
  pClose : ℚ
  low : ℚ
  high : ℚ
  avgPrice : ℚ
  tVolume : ℤ
  totalValue : ℚ
  oi : ℤ
  oiChange : ℤ
  noOfContracts : ℤ
  strikePrice : ℚ
  expDate : String
  optionType : String
  pOpen : ℚ
  oiCombinedFut : ℚ
  fiveDayAvgVol : ℚ
  calcCol1 : ℚ
deriving DecidableEq

/-- Helper for Python `s.split(" ")` over the character list: returns the
piece accumulated so far and the completed later pieces. -/
def splitSp : List Char → List Char × List (List Char)
  | [] => ([], [])
  | c :: rest =>
    let (cur, parts) := splitSp rest
    if c = ' ' then ([], cur :: parts) else (c :: cur, parts)

/-- Python `s.split(" ")`: split on every single space, keeping empty
pieces (`"".split(" ") == [""]`, `" ".split(" ") == ["", ""]`). -/
def pySplitSpace (s : String) : List String :=
  let (cur, parts) := splitSp s.data
  (cur :: parts).map (fun cs => String.mk cs)

/-- Ticker resolution of `day_excel.py:93` (and `run.no_shorting_old.py:105`):
`"NIFTY" if key == "NIFTY_FUTURES" else identifier.split(" ")[1] if " " in identifier else None`.
Python's `" " in identifier` (single-space substring) is exactly membership
of the space character.  When it holds, `split(" ")` yields at least two
pieces, so index 1 exists and the `getD` default is never taken; Python
indexes unconditionally there. -/
def resolveTicker (key identifier : String) : Option String :=
  if key = "NIFTY_FUTURES" then some "NIFTY"
  else if identifier.data.contains ' ' then some ((pySplitSpace identifier).getD 1 "")
  else none

/-- The derived metric `calc_col_1 = (avg_price * t_volume) / 10**7`
(`day_excel.py:97`, `run_csv.py:54`), a pure function of the coalesced
average price and traded volume. -/
def calcDerived (avg_price : ℚ) (t_volume : ℤ) : ℚ := avg_price * (t_volume : ℚ) / 10 ^ 7

/-- The bid-level expression shared by both normalizers
(`day_excel.py:101-102`, `run_csv.py:63-64`):
`item["marketDeptOrderBook"]["bid"][0].get(field, 0) or 0` guarded by
`if "bid" in item["marketDeptOrderBook"] else 0`.  When the key is present
but the list is empty, the `[0]` raises `IndexError`, faithfully modelled as
an error. -/
def bidField (ob : JVal) (field : String) : Except String JVal := do
  if (← hasKey ob "bid") then
    match ← asArr (← jidx ob "bid") with
    | [] => .error "IndexError: list index out of range"
    | level :: _ => pure (pyOr ((← level.lookup field).getD (.num 0)) (.num 0))
  else
    pure (.num 0)

/-- One iteration of the loop body of `day_excel.py` `process_data`
(lines 91–111), building the 25-element row for one payload item.  The
bindings appear in the evaluation order of the Python source. -/
def processItemQD (key : String) (item : JVal) : Except String RowQD := do
  let md ← jidx item "metadata"
  let identifier ← getStrD md "identifier" ""
  let ticker := resolveTicker key identifier
  let ob ← jidx item "marketDeptOrderBook"
  let ti ← jidx ob "tradeInfo"
  let avgPrice ← getFloatOr0 ti "vmap"
  let tVolume ← getIntOr0 ti "tradedVolume"
  let calcCol1 := calcDerived avgPrice tVolume
  let ltp ← getFloatOr0 md "lastPrice"
  let chg ← getFloatOr0 md "change"
  let pChg ← getFloatOr0 md "pChange"
  let bidQty ← jint (← bidField ob "quantity")
  let bid ← jfloat (← bidField ob "price")
  let openPrice ← getFloatOr0 md "openPrice"
  let pClose ← getFloatOr0 md "prevClose"
  let low ← getFloatOr0 md "lowPrice"
  let high ← getFloatOr0 md "highPrice"
  let totalValue ← getFloatOr0 ti "value"
  let oi ← getIntOr0 ti "openInterest"
  let oiChange ← getIntOr0 ti "changeinOpenInterest"
  let noOfContracts ← getIntOr0 md "numberOfContractsTraded"
  let strikePrice ← getFloatOr0 md "strikePrice"
  let expDate ← getStrD md "expiryDate" ""
  let optionType ← getStrD md "optionType" ""
  let pOpen ← getFloatOr0 md "openPrice"
  let oth ← jidx ob "otherInfo"
  let oiCombinedFut ← getFloatOr0 oth "combinedOI"
  let fiveDayAvgVol ← getFloatOr0 ti "5DayAvgVol"
  pure {
    ticker := ticker, xch := "NSE", ltp := ltp, qty := tVolume, chg := chg,
    pChg := pChg, bidQty := bidQty, bid := bid, openPrice := openPrice,
    pClose := pClose, low := low, high := high, avgPrice := avgPrice,
    tVolume := tVolume, totalValue := totalValue, oi := oi,
    oiChange := oiChange, noOfContracts := noOfContracts,
    strikePrice := strikePrice, expDate := expDate, optionType := optionType,
    pOpen := pOpen, oiCombinedFut := oiCombinedFut,
    fiveDayAvgVol := fiveDayAvgVol, calcCol1 := calcCol1 }

/-- `day_excel.py:84-86`: keep a row exactly when `row[19] == expiry_date`
(index 19 is the "Exp. Date" field). -/
def filter_expiry_date (rows : List RowQD) (expiry_date : String) : List RowQD :=
  rows.filter (fun row => decide (row.expDate = expiry_date))

/-- `day_excel.py` `process_data` (lines 88–112): emit one row per element of
`data.get("stocks", [])`, then filter by the expiry date. -/
def process_data_day_excel (data : JVal) (key : String) (expiry_date : String) :
    Except String (List RowQD) := do
  let stocks ← asArr (← jgetD data "stocks" (.arr []))
  let rows ← stocks.mapM (processItemQD key)
  pure (filter_expiry_date rows expiry_date)

/-- Python `!=` between a JSON value and a Python string: equal exactly when
the value is that string (no coercion between JSON numbers and strings). -/
def JVal.eqStr : JVal → String → Bool
  | .str s, t => decide (s = t)
  | _, _ => false

/-- One iteration of the loop body of `run_csv.py` `process_data`
(lines 43–82).  `.ok none` models the two `continue` branches: expiry
mismatch (line 44) and zero strike price (line 48).  The expiry date and the
option type are read by direct indexing (`item["metadata"]["expiryDate"]`,
`["optionType"]`), so their absence raises, unlike the `.get` fields.  In the
emitted row `expDate` is the stored expiry string, which on the kept path
equals `expiry_date`. -/
def processItemCsv (expiry_date : String) (item : JVal) : Except String (Option RowQD) := do
  let md ← jidx item "metadata"
  let ed ← jidx md "expiryDate"
  if ed.eqStr expiry_date = false then pure none else do
  let strikePrice ← jfloat (pyOr ((← md.lookup "strikePrice").getD .null) (.num 0))
  if strikePrice = 0 then pure none else do
  let ob ← jidx item "marketDeptOrderBook"
  let ti ← jidx ob "tradeInfo"
  let avgPrice ← getFloatOr0 ti "vmap"
  let tVolume ← getIntOr0 ti "tradedVolume"
  let calcCol1 := calcDerived avgPrice tVolume
  let ticker ← getStrD md "instrumentType" ""
  let ltp ← getFloatOr0 md "lastPrice"
  let chg ← getFloatOr0 md "change"
  let pChg ← getFloatOr0 md "pChange"
  let bidQty ← jint (← bidField ob "quantity")
  let bid ← jfloat (← bidField ob "price")
  let openPrice ← getFloatOr0 md "openPrice"
  let pClose ← getFloatOr0 md "prevClose"
  let low ← getFloatOr0 md "lowPrice"
  let high ← getFloatOr0 md "highPrice"
  let totalValue ← getFloatOr0 ti "value"
  let oi ← getIntOr0 ti "openInterest"
  let oiChange ← getIntOr0 ti "changeinOpenInterest"
  let noOfContracts ← getIntOr0 md "numberOfContractsTraded"
  let optionType ← getStrD md "optionType" ""
  let pOpen ← getFloatOr0 md "openPrice"
  let oth ← jidx ob "otherInfo"
  let oiCombinedFut ← getFloatOr0 oth "combinedOI"
  let fiveDayAvgVol ← getFloatOr0 ti "5DayAvgVol"
  pure (some {
    ticker := some ticker, xch := "NSE", ltp := ltp, qty := tVolume,
    chg := chg, pChg := pChg, bidQty := bidQty, bid := bid,
    openPrice := openPrice, pClose := pClose, low := low, high := high,
    avgPrice := avgPrice, tVolume := tVolume, totalValue := totalValue,
    oi := oi, oiChange := oiChange, noOfContracts := noOfContracts,
    strikePrice := strikePrice, expDate := expiry_date,
    optionType := optionType, pOpen := pOpen, oiCombinedFut := oiCombinedFut,
    fiveDayAvgVol := fiveDayAvgVol, calcCol1 := calcCol1 })

/-- `run_csv.py` `process_data` (lines 41–90): filter-and-normalize in one
pass over `data.get("stocks", [])`; rows skipped by `continue` contribute
nothing.  (The final DataFrame sort is presentation only and not part of the
row content.) -/
def process_data_run_csv (data : JVal) (expiry_date : String) :
    Except String (List RowQD) := do
  let stocks ← asArr (← jgetD data "stocks" (.arr []))
  let rows ← stocks.mapM (processItemCsv expiry_date)
  pure (rows.filterMap id)

/-!
## Option-chain normalization (`src/dev/app.old.py` `process_data`, lines 70–108)

Here the source performs no numeric conversion at all: each field is stored
into the row exactly as `option_data.get(key, None)` returns it, so the row
fields are raw JSON values (`JVal.null` when the key is absent or stored as
null).
-/

/-- One output row of the option-chain normalizer: the 23-element list built
at `app.old.py:78-102`, fields in source order.  `openPrice` is the Python
"Open" column. -/
structure RowOC where
  ticker : JVal
  xch : String
  ltp : JVal
  qty : JVal
  chg : JVal
  pChg : JVal
  bidQty : JVal
  bid : JVal
  openPrice : JVal
  pClose : JVal
  low : JVal
  high : JVal
  avgPrice : JVal
  tVolume : JVal
  totalValue : JVal
  oi : JVal
  noOfContracts : JVal
  strikePrice : JVal
  expDate : JVal
  optionType : String
  pOpen : JVal
  oiCombinedFut : JVal
  fiveDayAvgVol : JVal

/-- The row built for one side (`option_type`, `option_data`) of a record,
`app.old.py:78-103`.  Every side field is `option_data.get(key, None)`;
`.get` on a non-dictionary side value raises. -/
def mkRowOC (strike_price expiry_date : JVal) (option_type : String)
    (option_data : JVal) : Except String RowOC := do
  let g := fun k => do pure ((← option_data.lookup k).getD .null)
  pure {
    ticker := ← g "underlying", xch := "NSE", ltp := ← g "lastPrice",
    qty := ← g "totalTradedVolume", chg := ← g "change",
    pChg := ← g "pChange", bidQty := ← g "bidQty", bid := ← g "bidprice",
    openPrice := ← g "openPrice", pClose := ← g "prevClose",
    low := ← g "lowPrice", high := ← g "highPrice", avgPrice := ← g "vwap",
    tVolume := ← g "totalTradedVolume", totalValue := ← g "totalValue",
    oi := ← g "openInterest", noOfContracts := ← g "numberOfContractsTraded",
    strikePrice := strike_price, expDate := expiry_date,
    optionType := option_type, pOpen := ← g "openPrice",
    oiCombinedFut := ← g "combinedOI", fiveDayAvgVol := ← g "5DayAvgVol" }

/-- One iteration of the record loop, `app.old.py:74-103`: the dict literal
`{"CE": record.get("CE", {}), "PE": record.get("PE", {})}` is iterated in
insertion order, so every record contributes a CE-labelled row followed by a
PE-labelled row, a missing side defaulting to the empty dictionary `{}`. -/
def rowsOfRecord (record : JVal) : Except String (List RowOC) := do
  let strike_price ← jgetD record "strikePrice" .null
  let expiry_date ← jgetD record "expiryDate" .null
  let ce ← jgetD record "CE" (.obj [])
  let pe ← jgetD record "PE" (.obj [])
  let rowCE ← mkRowOC strike_price expiry_date "CE" ce
  let rowPE ← mkRowOC strike_price expiry_date "PE" pe
  pure [rowCE, rowPE]

/-- `app.old.py` `process_data` (lines 70–108): iterate
`data.get("records", {}).get("data", [])` and collect both side rows of each
record. -/
def process_data_old (data : JVal) : Except String (List RowOC) := do
  let records ← asArr (← jgetD (← jgetD data "records" (.obj [])) "data" (.arr []))
  let rowLists ← records.mapM rowsOfRecord
  pure rowLists.flatten

/-!
## Trading window gates
(`src/dev/day_excel.py` `is_trading_hour`, lines 137–142, and
`src/prod/run_all.py` `is_within_time_range`, lines 29–35.)

A timestamp is modelled by its weekday (Python `datetime.weekday()`:
Monday = 0) and its time of day in microseconds.  `is_trading_hour` compares
`now` against `now.replace(hour=9, minute=15, second=0, microsecond=0)` and
`now.replace(hour=15, minute=30, ...)`: both bounds share `now`'s date, so
the datetime comparison is exactly a time-of-day comparison.
-/

/-- Time of day in microseconds. -/
def microOfDay (h m s μ : ℕ) : ℕ := ((h * 60 + m) * 60 + s) * 1000000 + μ

/-- `day_excel.py:137-142`: `start_time <= now <= end_time and now.weekday() <= 3`
with start 09:15:00.000000 and end 15:30:00.000000. -/
def is_trading_hour (weekday tod : ℕ) : Bool :=
  decide (microOfDay 9 15 0 0 ≤ tod) && decide (tod ≤ microOfDay 15 30 0 0)
    && decide (weekday ≤ 3)

/-- `run_all.py:29-35`: `start_time <= current_time <= end_time and now.weekday() < 5`,
with the open/close pair a parameter (`main` passes 09:15 and 15:40). -/
def is_within_time_range (start_time end_time : ℕ) (weekday tod : ℕ) : Bool :=
  decide (start_time ≤ tod) && decide (tod ≤ end_time) && decide (weekday < 5)

/-- C6: both gates are OPEN exactly when the time of day lies in the closed
interval between the open and close times and the weekday is eligible
(Mon–Thu for `is_trading_hour`, Mon–Fri for `is_within_time_range`); at the
open boundary on an eligible weekday the gate is OPEN, one second earlier it
is CLOSED; both are pure functions of the current timestamp by
construction. -/
theorem c6_trading_gate (w tod s e : ℕ) :
    (is_trading_hour w tod = true ↔
      microOfDay 9 15 0 0 ≤ tod ∧ tod ≤ microOfDay 15 30 0 0 ∧ w ≤ 3) ∧
    (is_within_time_range s e w tod = true ↔
      s ≤ tod ∧ tod ≤ e ∧ w < 5) ∧
    is_trading_hour 0 (microOfDay 9 15 0 0) = true ∧
    is_trading_hour 0 (microOfDay 9 14 59 0) = false ∧
    is_within_time_range (microOfDay 9 15 0 0) (microOfDay 15 40 0 0) 0
      (microOfDay 9 15 0 0) = true ∧
    is_within_time_range (microOfDay 9 15 0 0) (microOfDay 15 40 0 0) 0
      (microOfDay 9 14 59 0) = false := by
  refine ⟨?_, ?_, by decide, by decide, by decide, by decide⟩
  · simp [is_trading_hour, and_assoc]
  · simp [is_within_time_range, and_assoc]

/-!
## Weekly reset (`src/dev/run.no_shorting_old.py` `cleanup_and_initialize`, lines 142–156)

The snapshot store is modelled as a map from (day name, source key) to the
file's data rows; an empty list is a header-only file (the code writes
`pd.DataFrame(columns=self.columns)`, a zero-row frame).
-/

/-- The configured source keys (`run.no_shorting_old.py:28-31`). -/
def dataSourceKeys : List String := ["BANKNIFTY_FUTURES", "NIFTY_FUTURES"]

/-- The day partitions blanked by the weekly reset
(`run.no_shorting_old.py:151`). -/
def weekResetDays : List String := ["Monday", "Tuesday", "Wednesday", "Thursday"]

/-- `run.no_shorting_old.py:142-156`: when the current day name is "Friday"
and the current wall-clock minute is "09:15", rewrite every
`{day}_{key}.xlsx` for day in Mon–Thu and key in the configured sources to a
header-only file; otherwise do nothing. -/
def cleanup_and_initialize (current_day current_time : String)
    (files : String × String → List RowQD) : String × String → List RowQD :=
  if current_day = "Friday" ∧ current_time = "09:15" then
    fun p => if p.1 ∈ weekResetDays ∧ p.2 ∈ dataSourceKeys then [] else files p
  else files

/-- C7: the weekly reset runs exactly at the boundary (day "Friday", minute
"09:15") — off the boundary the store is unchanged; at the boundary every
Mon–Thu partition of a configured source becomes header-only (zero data
rows) while the current day's ("Friday") partitions are untouched; and the
reset is idempotent: running it a second time with the same clock reading
changes nothing. -/
theorem c7_weekly_reset (day time : String) (files : String × String → List RowQD) :
    (¬(day = "Friday" ∧ time = "09:15") → cleanup_and_initialize day time files = files) ∧
    (∀ d k, d ∈ weekResetDays → k ∈ dataSourceKeys →
      cleanup_and_initialize "Friday" "09:15" files (d, k) = []) ∧
    (∀ k, cleanup_and_initialize "Friday" "09:15" files ("Friday", k) = files ("Friday", k)) ∧
    cleanup_and_initialize day time ( cleanup_and_initialize day time files)
      = cleanup_and_initialize day time files := by
  refine ⟨?_, ?_, ?_, ?_⟩
  · intro h
    simp only [ cleanup_and_initialize, if_neg h]
  · intro d k hd hk
    simp [ cleanup_and_initialize, hd, hk]
  · intro k
    simp [ cleanup_and_initialize, weekResetDays]
  · by_cases h : day = "Friday" ∧ time = "09:15"
    · simp only [ cleanup_and_initialize, if_pos h]
      funext p
      by_cases hp : p.1 ∈ weekResetDays ∧ p.2 ∈ dataSourceKeys
      · simp [hp]
      · simp [hp]
    · simp only [ cleanup_and_initialize, if_neg h]

/-- Witness for C7 at a concrete boundary instant, partition and store. -/
theorem c7_weekly_reset_witness :
    cleanup_and_initialize "Friday" "09:15" (fun _ => []) ("Monday", "NIFTY_FUTURES") = [] :=
  (c7_weekly_reset "Friday" "09:15" (fun _ => [])).2.1 "Monday" "NIFTY_FUTURES"
    (by decide) (by decide)

/-!
## Helper lemmas for tracing the `Except`-monadic embeddings
-/

/-- A bind succeeds exactly when both steps succeed. -/
theorem bindE_ok {α β : Type} {x : Except String α} {f : α → Except String β} {b : β} :
    x >>= f = .ok b ↔ ∃ a, x = .ok a ∧ f a = .ok b := by
  cases x <;> simp [Bind.bind, Except.bind]

/-- `pure` produces exactly its argument. -/
theorem pureE_ok {α : Type} {a b : α} : (pure a : Except String α) = .ok b ↔ a = b := by
  simp [pure, Except.pure]

/-- A successful side row carries the given option type, strike price and
expiry date (the three record-level inputs of `mkRowOC`). -/
theorem mkRowOC_fields {sp ed : JVal} {t : String} {od : JVal} {r : RowOC}
    (h : mkRowOC sp ed t od = .ok r) :
    r.optionType = t ∧ r.strikePrice = sp ∧ r.expDate = ed := by
  simp only [mkRowOC, bindE_ok, pureE_ok] at h
  obtain ⟨_, _, _, _, _, _, _, _, _, _, _, _, _, _, _, _, _, _, _, _, _, _, _, _,
    _, _, _, _, _, _, _, _, _, _, _, _, _, _, hr⟩ := h
  subst hr
  exact ⟨rfl, rfl, rfl⟩

-- Decidable equality of embedding results, for evaluating the embeddings at
-- concrete payloads.
deriving instance DecidableEq for Except

/-!
## C2 — option-chain rows per record
-/

/-- A strike/expiry record with only the CE side populated. -/
def ceOnlyRecord : JVal := .obj [
  ("strikePrice", .num 48000),
  ("expiryDate", .str "26-Dec-2024"),
  ("CE", .obj [("underlying", .str "BANKNIFTY"), ("lastPrice", .num 5)])]

/-- An option-chain payload holding the single CE-only record. -/
def ceOnlyPayload : JVal := .obj [
  ("records", .obj [("data", .arr [ceOnlyRecord]), ("timestamp", .str "26-Dec-2024 15:30:00")])]

/-- C2: the claim as stated is false on the code — in the record above the PE
side is absent, yet the normalizer emits two rows ("a Row for the PE side if
and only if that side is present" predicts one): the dict literal at
`app.old.py:77` always iterates both sides, defaulting a missing side to
`{}`. -/
theorem c2_counterexample :
    ceOnlyRecord.lookup "PE" = .ok none ∧
    (process_data_old ceOnlyPayload).map (fun rows => rows.map RowOC.optionType) =
      .ok ["CE", "PE"] := by
  exact ⟨rfl, rfl⟩

/-- C2 (amended): every option-chain record that the normalizer processes
successfully yields exactly two Rows — a CE-labelled one followed by a
PE-labelled one — regardless of which sides are populated (an absent side is
replaced by the empty dictionary, giving a Row whose side fields are null);
the two Rows share the record's strike price and expiry date and differ in
option type. -/
theorem c2_option_chain_rows_amended (record : JVal) (rows : List RowOC)
    (h : rowsOfRecord record = .ok rows) :
    ∃ rCE rPE, rows = [rCE, rPE] ∧
      rCE.optionType = "CE" ∧ rPE.optionType = "PE" ∧
      rCE.optionType ≠ rPE.optionType ∧
      rCE.strikePrice = rPE.strikePrice ∧ rCE.expDate = rPE.expDate := by
  simp only [rowsOfRecord, bindE_ok, pureE_ok] at h
  obtain ⟨sp, hsp, ed, hed, ce, hce, pe, hpe, rCE, hCE, rPE, hPE, hr⟩ := h
  obtain ⟨hCEt, hCEsp, hCEed⟩ := mkRowOC_fields hCE
  obtain ⟨hPEt, hPEsp, hPEed⟩ := mkRowOC_fields hPE
  refine ⟨rCE, rPE, hr.symm, hCEt, hPEt, ?_, ?_, ?_⟩
  · rw [hCEt, hPEt]; decide
  · rw [hCEsp, hPEsp]
  · rw [hCEed, hPEed]

/-- Witness for C2 (amended): the empty record, whose two emitted rows carry
null fields on both sides. -/
theorem c2_option_chain_rows_amended_witness :
    ∃ rCE rPE,
      ([{ ticker := .null, xch := "NSE", ltp := .null, qty := .null, chg := .null,
          pChg := .null, bidQty := .null, bid := .null, openPrice := .null,
          pClose := .null, low := .null, high := .null, avgPrice := .null,
          tVolume := .null, totalValue := .null, oi := .null,
          noOfContracts := .null, strikePrice := .null, expDate := .null,
          optionType := "CE", pOpen := .null, oiCombinedFut := .null,
          fiveDayAvgVol := .null },
        { ticker := .null, xch := "NSE", ltp := .null, qty := .null, chg := .null,
          pChg := .null, bidQty := .null, bid := .null, openPrice := .null,
          pClose := .null, low := .null, high := .null, avgPrice := .null,
          tVolume := .null, totalValue := .null, oi := .null,
          noOfContracts := .null, strikePrice := .null, expDate := .null,
          optionType := "PE", pOpen := .null, oiCombinedFut := .null,
          fiveDayAvgVol := .null }] : List RowOC) = [rCE, rPE] ∧
      rCE.optionType = "CE" ∧ rPE.optionType = "PE" ∧
      rCE.optionType ≠ rPE.optionType ∧
      rCE.strikePrice = rPE.strikePrice ∧ rCE.expDate = rPE.expDate :=
  c2_option_chain_rows_amended (.obj []) _ rfl

/-!
## C3 — null coalescing
-/

/-- An option-chain payload whose record has a populated CE side that lacks
`lastPrice` (and a wholly absent PE side). -/
def missingLtpPayload : JVal := .obj [
  ("records", .obj [("data", .arr [.obj [
    ("strikePrice", .num 48000),
    ("expiryDate", .str "26-Dec-2024"),
    ("CE", .obj [("underlying", .str "BANKNIFTY")])]])])]

/-- C3: the claim as stated is false on the code — the option-chain
normalizer (`app.old.py:78-103`) stores `option_data.get(key, None)` without
any coalescing, so the emitted Rows of the payload above carry `null` in the
numeric LTP field instead of 0. -/
theorem c3_counterexample :
    (process_data_old missingLtpPayload).map (fun rows => rows.map RowOC.ltp) =
      .ok [.null, .null] := rfl

/-- A quote-derivative payload item carrying only the containers accessed by
direct indexing, with every optional field absent. -/
def minimalQDItem : JVal := .obj [
  ("metadata", .obj []),
  ("marketDeptOrderBook", .obj [("tradeInfo", .obj []), ("otherInfo", .obj [])])]

/-- The row the dev quote-derivative normalizer emits for `minimalQDItem`:
every coalesced numeric field is 0, every defaulted string empty, the
ticker `None`. -/
def zeroRowQD : RowQD := {
  ticker := none, xch := "NSE", ltp := 0, qty := 0, chg := 0, pChg := 0,
  bidQty := 0, bid := 0, openPrice := 0, pClose := 0, low := 0, high := 0,
  avgPrice := 0, tVolume := 0, totalValue := 0, oi := 0, oiChange := 0,
  noOfContracts := 0, strikePrice := 0, expDate := "", optionType := "",
  pOpen := 0, oiCombinedFut := 0, fiveDayAvgVol := 0,
  calcCol1 := calcDerived 0 0 }

/-- C3 (amended): zero-coalescing holds in the quote-derivative normalizers —
every numeric source field read through `.get`-plus-`or 0` that is absent
from its containing object, or stored as null, is emitted as 0/0.0 without
any error (including the guarded bid fields when the bid array is absent),
and an item with all optional fields missing normalizes to the all-zero row;
the option-chain normalizer (`app.old.py`) performs no such coalescing and
emits null for missing fields (see its separate record of this fact). -/
theorem c3_zero_coalescing_amended (o : JVal) (k f : String)
    (h : o.lookup k = .ok none ∨ o.lookup k = .ok (some .null)) :
    getFloatOr0 o k = .ok 0 ∧ getIntOr0 o k = .ok 0 ∧
    (o.lookup "bid" = .ok none → bidField o f = .ok (.num 0)) ∧
    processItemQD "BANKNIFTY_FUTURES" minimalQDItem = .ok zeroRowQD := by
  refine ⟨?_, ?_, fun hb => ?_, rfl⟩
  · rcases h with h | h <;>
      simp [getFloatOr0, h, pyOr, JVal.truthy, jfloat, Bind.bind, Except.bind]
  · rcases h with h | h <;>
      simp [getIntOr0, h, pyOr, JVal.truthy, jint, pyTrunc, Bind.bind, Except.bind]
  · simp [bidField, hasKey, hb, Bind.bind, Except.bind, pure, Except.pure]

/-- Witness for C3 (amended): an absent key in the empty dictionary
coalesces to 0.0. -/
theorem c3_zero_coalescing_amended_witness :
    getFloatOr0 (.obj []) "lastPrice" = .ok 0 :=
  (c3_zero_coalescing_amended (.obj []) "lastPrice" "price" (Or.inl rfl)).1

/-!
## Tracing lemmas for the emitted rows
-/

/-- Every row the prod normalizer emits has a non-zero strike price, carries
the target expiry string, and its derived column is the derived metric of
its own average price and traded volume. -/
theorem processItemCsv_ok_some {e : String} {item : JVal} {r : RowQD}
    (h : processItemCsv e item = .ok (some r)) :
    r.strikePrice ≠ 0 ∧ r.expDate = e ∧
    r.calcCol1 = calcDerived r.avgPrice r.tVolume := by
  simp only [processItemCsv, bindE_ok] at h
  obtain ⟨md, hmd, ed, hed, h⟩ := h
  by_cases hb : ed.eqStr e = false
  · rw [if_pos hb] at h
    simp [pureE_ok] at h
  · rw [if_neg hb] at h
    simp only [bindE_ok] at h
    obtain ⟨spv, hspv, sp, hsp, h⟩ := h
    by_cases hz : sp = 0
    · rw [if_pos hz] at h
      simp [pureE_ok] at h
    · rw [if_neg hz] at h
      simp only [bindE_ok, pureE_ok, Option.some.injEq] at h
      obtain ⟨_ob, _, _ti, _, _avgP, _, _tV, _, _tk, _, _ltp, _, _chg, _, _pChg, _,
        _bq, _, _bqi, _, _bp, _, _bpf, _, _op, _, _pc, _, _lo, _, _hi, _, _tv2, _,
        _oiv, _, _oic, _, _noc, _, _ot, _, _po, _, _oth, _, _ocf, _, _fdv, _, hr⟩ := h
      subst hr
      exact ⟨hz, rfl, rfl⟩

/-- Every row the dev normalizer emits has its derived column equal to the
derived metric of its own average price and traded volume, and its traded
quantity column repeats the traded volume. -/
theorem processItemQD_calc {key : String} {item : JVal} {r : RowQD}
    (h : processItemQD key item = .ok r) :
    r.calcCol1 = calcDerived r.avgPrice r.tVolume ∧ r.qty = r.tVolume := by
  simp only [processItemQD, bindE_ok, pureE_ok] at h
  obtain ⟨_md, _, _idf, _, _ob, _, _ti, _, _avgP, _, _tV, _, _ltp, _, _chg, _,
    _pChg, _, _bq, _, _bqi, _, _bp, _, _bpf, _, _op, _, _pc, _, _lo, _, _hi, _,
    _tv2, _, _oiv, _, _oic, _, _noc, _, _sp, _, _ed, _, _ot, _, _po, _, _oth, _,
    _ocf, _, _fdv, _, hr⟩ := h
  subst hr
  exact ⟨rfl, rfl⟩

/-!
## C4 — strike-zero exclusion
-/

/-- A quote-derivative item with strike price exactly 0 and a known expiry. -/
def strikeZeroItem : JVal := .obj [
  ("metadata", .obj [
    ("expiryDate", .str "26-Dec-2024"),
    ("strikePrice", .num 0),
    ("optionType", .str "PE")]),
  ("marketDeptOrderBook", .obj [("tradeInfo", .obj []), ("otherInfo", .obj [])])]

/-- A quote-derivative payload holding only the strike-zero item. -/
def strikeZeroPayload : JVal := .obj [("stocks", .arr [strikeZeroItem])]

/-- C4: the claim as stated is false on the code — the nearest-expiry filter
(`day_excel.py:84-86`) tests only the expiry string, so a strike-zero row
whose expiry matches appears in that mode's filtered output. -/
theorem c4_counterexample :
    (process_data_day_excel strikeZeroPayload "BANKNIFTY_FUTURES" "26-Dec-2024").map
      (fun rows => rows.map (fun r => (r.strikePrice, r.expDate))) =
      .ok [(0, "26-Dec-2024")] := rfl

/-- C4 (amended): only the explicit-expiry pipeline (`run_csv.py`) drops
strike-zero rows — every row it emits has a non-zero strike — while the
nearest-expiry filter (`day_excel.py` `filter_expiry_date`) keeps a row
exactly when its expiry string matches, with no strike-price condition. -/
theorem c4_strike_zero_amended (e : String) (item : JVal) (r row : RowQD)
    (rows : List RowQD) :
    (processItemCsv e item = .ok (some r) → r.strikePrice ≠ 0) ∧
    (row ∈ filter_expiry_date rows e ↔ row ∈ rows ∧ row.expDate = e) := by
  constructor
  · intro h
    exact (processItemCsv_ok_some h).1
  · simp [filter_expiry_date, List.mem_filter]

/-- Metadata of a well-formed prod payload item with non-zero strike. -/
def c4CsvMeta : JVal := .obj [
  ("expiryDate", .str "26-Dec-2024"),
  ("strikePrice", .num 48000),
  ("optionType", .str "CE"),
  ("instrumentType", .str "Index Options")]

/-- A well-formed prod payload item with non-zero strike. -/
def c4CsvItem : JVal := .obj [
  ("metadata", c4CsvMeta),
  ("marketDeptOrderBook", .obj [("tradeInfo", .obj []), ("otherInfo", .obj [])])]

/-- The row the prod normalizer emits for `c4CsvItem`. -/
def c4CsvRow : RowQD := {
  ticker := some "Index Options", xch := "NSE", ltp := 0, qty := 0, chg := 0,
  pChg := 0, bidQty := 0, bid := 0, openPrice := 0, pClose := 0, low := 0,
  high := 0, avgPrice := 0, tVolume := 0, totalValue := 0, oi := 0,
  oiChange := 0, noOfContracts := 0, strikePrice := 48000,
  expDate := "26-Dec-2024", optionType := "CE", pOpen := 0,
  oiCombinedFut := 0, fiveDayAvgVol := 0, calcCol1 := calcDerived 0 0 }

/-- Witness for C4 (amended) on a concrete emitted row. -/
theorem c4_strike_zero_amended_witness : c4CsvRow.strikePrice ≠ 0 :=
  (c4_strike_zero_amended "26-Dec-2024" c4CsvItem c4CsvRow zeroRowQD []).1 rfl

/-!
## C5 — bid-level defaulting
-/

/-- A quote-derivative item whose bid-levels array is present but empty. -/
def emptyBidItem : JVal := .obj [
  ("metadata", .obj []),
  ("marketDeptOrderBook", .obj [
    ("tradeInfo", .obj []), ("otherInfo", .obj []), ("bid", .arr [])])]

/-- C5: the claim as stated is false on the code — the guard
`if "bid" in item["marketDeptOrderBook"]` tests only key presence, so a
present-but-empty bid array reaches `["bid"][0]` and raises `IndexError`
instead of emitting a row with zero bid fields. -/
theorem c5_counterexample :
    processItemQD "BANKNIFTY_FUTURES" emptyBidItem =
      .error "IndexError: list index out of range" := rfl

/-- C5 (amended): when the bid-levels array is absent both bid fields
default to 0/0.0 without error — an item with no bid key normalizes with
bid quantity 0 and bid price 0.0 — but when the array is present and empty
the indexing of the first bid level fails with `IndexError`. -/
theorem c5_bid_default_amended (ob : JVal) (f : String) :
    (ob.lookup "bid" = .ok none → bidField ob f = .ok (.num 0)) ∧
    (ob.lookup "bid" = .ok (some (.arr [])) →
      bidField ob f = .error "IndexError: list index out of range") ∧
    (processItemQD "BANKNIFTY_FUTURES" minimalQDItem).map
      (fun r => (r.bidQty, r.bid)) = .ok (0, 0) ∧
    processItemQD "BANKNIFTY_FUTURES" emptyBidItem =
      .error "IndexError: list index out of range" := by
  refine ⟨fun hb => ?_, fun hb => ?_, rfl, rfl⟩
  · simp [bidField, hasKey, hb, Bind.bind, Except.bind, pure, Except.pure]
  · simp [bidField, hasKey, jidx, asArr, hb, Bind.bind, Except.bind, pure, Except.pure]

/-- Witness for C5 (amended): an order book without a bid key. -/
theorem c5_bid_default_amended_witness : bidField (.obj []) "price" = .ok (.num 0) :=
  (c5_bid_default_amended (.obj []) "price").1 rfl

/-!
## C8 — quote-derivative ticker resolution
-/

/-- A dev quote-derivative payload item with the given identifier string. -/
def qdStocksItem (idtf : String) : JVal := .obj [
  ("metadata", .obj [("identifier", .str idtf), ("expiryDate", .str "26-Dec-2024")]),
  ("marketDeptOrderBook", .obj [("tradeInfo", .obj []), ("otherInfo", .obj [])])]

/-- A two-item payload: one parseable BANKNIFTY identifier, one
whitespace-free identifier. -/
def twoItemPayload : JVal := .obj [("stocks", .arr [
  qdStocksItem "OPTIDX BANKNIFTY 26-Dec-2024 CE 48000.00",
  qdStocksItem "FUTIDXBANKNIFTY"])]

/-- A prod payload item whose identifier contains no whitespace and whose
instrument type is "Index Futures". -/
def noSpaceCsvItem : JVal := .obj [
  ("metadata", .obj [
    ("identifier", .str "FUTIDXBANKNIFTY25-01-30"),
    ("expiryDate", .str "26-Dec-2024"),
    ("strikePrice", .num 48000),
    ("optionType", .str "XX"),
    ("instrumentType", .str "Index Futures")]),
  ("marketDeptOrderBook", .obj [("tradeInfo", .obj []), ("otherInfo", .obj [])])]

/-- C8: the claim as stated is false on the code — the prod normalizer
(`run_csv.py:57`) takes the ticker from the item's `instrumentType`, not
from the identifier string, so an item whose identifier has no whitespace
still gets a non-null ticker ("Index Futures") where the claim requires an
absent one. -/
theorem c8_counterexample :
    ("FUTIDXBANKNIFTY25-01-30".data.contains ' ') = false ∧
    (processItemCsv "26-Dec-2024" noSpaceCsvItem).map (fun o => o.map RowQD.ticker) =
      .ok (some (some "Index Futures")) := ⟨rfl, rfl⟩

/-- C8 (amended): in the dev quote-derivative normalizer the ticker is the
well-known name "NIFTY" when the source key is `NIFTY_FUTURES`, otherwise
the second whitespace-separated token of the identifier, and null when the
identifier contains no whitespace — in particular a two-item payload whose
second item has a whitespace-free identifier yields two Rows with the second
Row's ticker null; the prod normalizer (`run_csv.py`) instead uses the
item's `instrumentType` (empty default) as the ticker. -/
theorem c8_ticker_resolution_amended (key id : String) :
    resolveTicker "NIFTY_FUTURES" id = some "NIFTY" ∧
    (key ≠ "NIFTY_FUTURES" → id.data.contains ' ' = false →
      resolveTicker key id = none) ∧
    (key ≠ "NIFTY_FUTURES" → id.data.contains ' ' = true →
      resolveTicker key id = some ((pySplitSpace id).getD 1 "")) ∧
    (process_data_day_excel twoItemPayload "BANKNIFTY_FUTURES" "26-Dec-2024").map
      (fun rows => rows.map RowQD.ticker) = .ok [some "BANKNIFTY", none] ∧
    (processItemCsv "26-Dec-2024" noSpaceCsvItem).map (fun o => o.map RowQD.ticker) =
      .ok (some (some "Index Futures")) := by
  refine ⟨by simp [resolveTicker], fun h1 h2 => ?_, fun h1 h2 => ?_, rfl, rfl⟩
  · have h2m : ¬ (' ' ∈ id.data) := by simpa using h2
    simp [resolveTicker, h1, h2m]
  · have h2m : ' ' ∈ id.data := by simpa using h2
    simp [resolveTicker, h1, h2m]

/-- Witness for C8 (amended): a whitespace-free identifier under the
BANKNIFTY source key resolves to no ticker. -/
theorem c8_ticker_resolution_amended_witness :
    resolveTicker "BANKNIFTY_FUTURES" "FUTIDXBANKNIFTY" = none :=
  (c8_ticker_resolution_amended "BANKNIFTY_FUTURES" "FUTIDXBANKNIFTY").2.1
    (by decide) rfl

/-!
## C9 — derived value formula
-/

/-- C9: in both quote-derivative normalizers every emitted row's derived
column equals `(volume-weighted average price × traded volume) / 10^7`
computed from the row's own post-coalescing `avgPrice` and `tVolume` fields,
and the metric is a pure function that is exactly 0 whenever either factor
is 0. -/
theorem c9_derived_value (key e : String) (item : JVal) (r rr : RowQD)
    (a : ℚ) (t : ℤ) :
    (processItemQD key item = .ok r →
      r.calcCol1 = calcDerived r.avgPrice r.tVolume) ∧
    (processItemCsv e item = .ok (some rr) →
      rr.calcCol1 = calcDerived rr.avgPrice rr.tVolume) ∧
    (a = 0 ∨ t = 0 → calcDerived a t = 0) := by
  refine ⟨fun h => (processItemQD_calc h).1, fun h => (processItemCsv_ok_some h).2.2,
    fun h => ?_⟩
  rcases h with h | h <;> subst h <;> simp [calcDerived]

/-- Witness for C9 at the concrete minimal item and at zero inputs. -/
theorem c9_derived_value_witness :
    zeroRowQD.calcCol1 = calcDerived zeroRowQD.avgPrice zeroRowQD.tVolume ∧
    calcDerived 0 1 = 0 :=
  ⟨(c9_derived_value "BANKNIFTY_FUTURES" "x" minimalQDItem zeroRowQD zeroRowQD 0 1).1 rfl,
   (c9_derived_value "BANKNIFTY_FUTURES" "x" minimalQDItem zeroRowQD zeroRowQD 0 1).2.2
     (Or.inl rfl)⟩

/-!
## C10 — expiry comparison is exact string equality
-/

/-- A row whose expiry denotes 2024-12-26 in the provider's format. -/
def formatMismatchRow : RowQD := { zeroRowQD with expDate := "26-Dec-2024" }

/-- C10: in both filter modes the expiry comparison is plain character-level
string equality — a row passes `filter_expiry_date` exactly when its expiry
string equals the target, the prod normalizer skips an item whenever its
stored expiry value is not that exact string, every row it does emit carries
the target string, and a row whose expiry spells the same calendar date in
another format ("26-Dec-2024" vs "2024-12-26") is dropped. -/
theorem c10_expiry_exact_string (rows : List RowQD) (e : String) (row : RowQD)
    (item : JVal) (r : RowQD) :
    (row ∈ filter_expiry_date rows e ↔ row ∈ rows ∧ row.expDate = e) ∧
    (∀ it md ed, jidx it "metadata" = .ok md → jidx md "expiryDate" = .ok ed →
      ed.eqStr e = false → processItemCsv e it = .ok none) ∧
    (processItemCsv e item = .ok (some r) → r.expDate = e) ∧
    (formatMismatchRow.expDate = "26-Dec-2024" ∧
      filter_expiry_date [formatMismatchRow] "2024-12-26" = []) := by
  refine ⟨by simp [filter_expiry_date, List.mem_filter], ?_,
    fun h => (processItemCsv_ok_some h).2.1, ⟨rfl, rfl⟩⟩
  intro it md ed hmd hed hne
  simp [processItemCsv, hmd, hed, hne, Bind.bind, Except.bind, pure, Except.pure]

/-- Witness for C10: the prod normalizer drops `c4CsvItem` (expiry stored as
"26-Dec-2024") when the target is spelled "2024-12-26". -/
theorem c10_expiry_exact_string_witness :
    processItemCsv "2024-12-26" c4CsvItem = .ok none :=
  (c10_expiry_exact_string [] "2024-12-26" zeroRowQD c4CsvItem zeroRowQD).2.1
    c4CsvItem c4CsvMeta (.str "26-Dec-2024") rfl rfl rfl
